import Mathlib

/-!
# swagger-crud-demo: authentication and authorization contract

A shallow embedding of `middleware/auth.js` and `Routers/user.js`.

* JavaScript values that travel through request bodies and queries are `Val`.
* The Express request/response pair, the number of `next()` calls and the
  calls made to the external collaborators (jsonwebtoken, bcryptjs, the
  mongoose `User` model) are one explicit state, `Ctx`, threaded through
  every handler.
* The collaborators themselves are parameters (`JwtLib`, `BcryptLib`,
  `Directory`): the handlers are translated statement by statement and ask
  them for results.
* An identifier that a module uses without declaring it (`jwt` in
  `middleware/auth.js`, `config` in `Routers/user.js`) is resolved through
  the global object, `Globals`; `nodeGlobals` is the global object as the
  files of the repository leave it.
-/

namespace SwaggerCrud

/-! ## JavaScript values and strings -/

/-- JSON-level JavaScript values carried by request bodies and query strings. -/
inductive Val where
  | undefined
  | null
  | bool (b : Bool)
  | num (n : Int)
  | str (s : String)
  deriving DecidableEq, Repr

/-- JavaScript truthiness (`ToBoolean`) on `Val`. -/
def Val.truthy : Val → Bool
  | .undefined => false
  | .null => false
  | .bool b => b
  | .num n => n != 0
  | .str s => s != ""

/-- The operator `typeof` on `Val`. -/
def Val.typeof : Val → String
  | .undefined => "undefined"
  | .null => "object"
  | .bool _ => "boolean"
  | .num _ => "number"
  | .str _ => "string"

/-- A thrown JavaScript error: its constructor name and its `message`. -/
structure JsError where
  name : String
  message : String
  deriving DecidableEq, Repr

/-- Reading an identifier that no scope binds throws
`ReferenceError: <name> is not defined`. -/
def referenceError (ident : String) : JsError :=
  { name := "ReferenceError", message := ident ++ " is not defined" }

/-- Test whether `pat` is an initial segment of `s`. -/
def startsWith : List Char → List Char → Bool
  | [], _ => true
  | _ :: _, [] => false
  | p :: ps, c :: cs => p == c && startsWith ps cs

/-- `String.prototype.replace(pat, rep)` with a string pattern: scan from
the left, and at the first position where `pat` starts, put `rep` in its
place; a string without any occurrence is returned unchanged. -/
def replaceFirst (pat rep : List Char) : List Char → List Char
  | [] => if startsWith pat [] then rep else []
  | c :: cs =>
    if startsWith pat (c :: cs) then rep ++ (c :: cs).drop pat.length
    else c :: replaceFirst pat rep cs

/-- The method `s.replace(pat, rep)` on strings. -/
def jsReplace (s pat rep : String) : String :=
  ⟨replaceFirst pat.data rep.data s.data⟩

/-- `pat` occurs somewhere in `s`. -/
def occursIn (pat : List Char) : List Char → Bool
  | [] => startsWith pat []
  | c :: cs => startsWith pat (c :: cs) || occursIn pat cs

/-! ## Data model -/

/-- The eight fields that every handler destructures from `req.body` and
hands to the `User` model; a field absent from the JSON body is
`undefined`. -/
structure UserFields where
  firstName : Val := .undefined
  lastName : Val := .undefined
  email : Val := .undefined
  password : Val := .undefined
  role : Val := .undefined
  age : Val := .undefined
  address : Val := .undefined
  phoneNumber : Val := .undefined
  deriving DecidableEq, Repr

/-- A stored user document as the directory returns it. -/
structure UserRec where
  _id : String
  fields : UserFields
  deriving DecidableEq, Repr

/-- The object signed into a token: `{ userId: user._id, role: user.role }`. -/
structure JwtPayload where
  userId : String
  role : Val
  deriving DecidableEq, Repr

/-- Decoded token claims, the value returned by `jwt.verify`. -/
structure Claims where
  userId : String
  role : Val
  iat : Nat
  exp : Nat
  deriving DecidableEq, Repr

/-- The module `../config`, of which only `jwtSecret` is read. -/
structure Config where
  jwtSecret : String
  deriving DecidableEq, Repr

/-- The part of the Express request that the code reads or writes. -/
structure Request where
  authorization : Option String := none
  body : UserFields := {}
  paramsId : String := ""
  queryPage : Val := .undefined
  queryLimit : Val := .undefined
  queryEmail : Val := .undefined
  user : Option Claims := none
  deriving DecidableEq, Repr

/-- The JSON bodies that the handlers send. -/
inductive RespBody where
  | message (m : String)
  | token (t : String)
  | user (u : UserRec)
  | users (us : List UserRec)
  deriving DecidableEq, Repr

/-- The Express response: the status set by `res.status` (200 until set)
and every body sent by `res.json`, each with the status it went out with. -/
structure Response where
  statusCode : Nat := 200
  sent : List (Nat × RespBody) := []
  deriving DecidableEq, Repr

/-- A call made to an external collaborator, with its arguments. -/
inductive Call where
  | jwtSign (payload : JwtPayload) (secret expiresIn : String)
  | jwtVerify (token secret : String)
  | bcryptHash (password : Val) (rounds : Nat)
  | bcryptCompare (password stored : Val)
  | save (doc : UserFields)
  | find (page limit : Val)
  | findByIdAndUpdate (id : String) (patch : UserFields)
  | findOneAndDelete (email : Val)
  | findOne (email : Val)
  deriving DecidableEq, Repr

/-- Does the call go to the user directory (the mongoose `User` model)? -/
def Call.isDirectory : Call → Bool
  | .save _ => true
  | .find _ _ => true
  | .findByIdAndUpdate _ _ => true
  | .findOneAndDelete _ => true
  | .findOne _ => true
  | _ => false

/-- The state threaded through middleware and handlers. -/
structure Ctx where
  req : Request := {}
  res : Response := {}
  nextCalls : Nat := 0
  calls : List Call := []
  deriving DecidableEq, Repr

/-- The call `res.status(code)`. -/
def Ctx.status (c : Ctx) (code : Nat) : Ctx :=
  { c with res := { c.res with statusCode := code } }

/-- The call `res.json(body)`: the body goes out with the current status. -/
def Ctx.json (c : Ctx) (body : RespBody) : Ctx :=
  { c with res := { c.res with sent := c.res.sent ++ [(c.res.statusCode, body)] } }

/-- Record a call to a collaborator. -/
def Ctx.call (c : Ctx) (k : Call) : Ctx :=
  { c with calls := c.calls ++ [k] }

/-- The call `next()`: count it and run the rest of the route. -/
def Ctx.next (c : Ctx) (rest : Ctx → Ctx) : Ctx :=
  rest { c with nextCalls := c.nextCalls + 1 }

/-! ## External collaborators -/

/-- The library jsonwebtoken, at the moment of the request. `sign` with an
object payload, a non-empty string secret and an `expiresIn` option
returns the compact token; with an empty secret the library throws
`secretOrPrivateKey must have a value` instead, which the caller models
(see `postLogin`). `verify` returns the decoded claims or throws. -/
structure JwtLib where
  sign : JwtPayload → String → String → String
  verify : String → String → Except JsError Claims

/-- The library bcryptjs. -/
structure BcryptLib where
  hash : Val → Nat → Except JsError String
  compare : Val → Val → Except JsError Bool

/-- The mongoose `User` model, the user directory. `save` covers
`new User(doc).save()`, `find` covers
`User.find().skip((page - 1) * limit).limit(limit)`. -/
structure Directory where
  save : UserFields → Except JsError UserRec
  find : Val → Val → Except JsError (List UserRec)
  findByIdAndUpdate : String → UserFields → Except JsError (Option UserRec)
  findOneAndDelete : Val → Except JsError (Option UserRec)
  findOne : Val → Except JsError (Option UserRec)

/-- The identifiers that `Routers/user.js` binds with `require`. -/
structure RouterScope where
  User : Directory
  jwt : JwtLib
  bcrypt : BcryptLib

/-- The global object, where an identifier that its module does not declare
is looked up: `jwt` for `middleware/auth.js`, `config` for
`Routers/user.js`. -/
structure Globals where
  jwt : Option JwtLib
  config : Option Config

/-- The global object of the running service: Node defines neither `jwt`
nor `config`, and no file of the repository assigns them. -/
def nodeGlobals : Globals := { jwt := none, config := none }

/-! ## middleware/auth.js -/

/-- The expression `req.header('Authorization')?.replace('Bearer ', '')`. -/
def extractToken (header : Option String) : Option String :=
  header.map fun h => jsReplace h "Bearer " ""

/-- The `try` block of `authorize` with its `catch`, entered with a
non-empty token. The identifier `jwt` is not declared in
`middleware/auth.js`: when the global object does not define it either,
reading it throws a `ReferenceError` before anything is called. Every
throw inside `try` is answered by the `catch` clause. -/
def tryVerify (g : Globals) (config : Config) (next : Ctx → Ctx) (c : Ctx)
    (token : String) : Ctx :=
  match g.jwt with
  | none => (c.status 400).json (.message "Invalid token.")
  | some jwt =>
    let c1 := c.call (.jwtVerify token config.jwtSecret)
    match jwt.verify token config.jwtSecret with
    | .error _ => (c1.status 400).json (.message "Invalid token.")
    | .ok decoded =>
      let c2 : Ctx := { c1 with req := { c1.req with user := some decoded } }
      c2.next next

/-- The middleware `authorize(req, res, next)`. The test `!token` holds
for `undefined` and for the empty string. -/
def authorize (g : Globals) (config : Config) (next : Ctx → Ctx) (c : Ctx) : Ctx :=
  match extractToken c.req.authorization with
  | none => (c.status 401).json (.message "Access denied. No token provided.")
  | some token =>
    if token = "" then
      (c.status 401).json (.message "Access denied. No token provided.")
    else tryVerify g config next c token

/-- Does evaluating `jwt.verify(token, config.jwtSecret)` inside
`authorize` throw? -/
def verifyThrows (g : Globals) (config : Config) (token : String) : Bool :=
  match g.jwt with
  | none => true
  | some jwt =>
    match jwt.verify token config.jwtSecret with
    | .error _ => true
    | .ok _ => false

/-! ## Routers/user.js -/

/-- The object literal
`{ firstName, lastName, email, password, role, age, address, phoneNumber }`
built from the destructured body. -/
def bodyFields (b : UserFields) : UserFields :=
  { firstName := b.firstName, lastName := b.lastName, email := b.email,
    password := b.password, role := b.role, age := b.age,
    address := b.address, phoneNumber := b.phoneNumber }

/-- Handler of `router.post('/')`. -/
def postRoot (m : RouterScope) (c : Ctx) : Ctx :=
  let newUser := bodyFields c.req.body
  let c1 := c.call (.save newUser)
  match m.User.save newUser with
  | .ok user => (c1.status 201).json (.user user)
  | .error err => (c1.status 400).json (.message err.message)

/-- A destructuring default, `{ x = d } = obj`: used when the property is
`undefined`. -/
def withDefault (v d : Val) : Val :=
  if v = .undefined then d else v

/-- Handler of `router.get('/')`. -/
def getRoot (m : RouterScope) (c : Ctx) : Ctx :=
  let page := withDefault c.req.queryPage (.num 1)
  let limit := withDefault c.req.queryLimit (.num 10)
  let c1 := c.call (.find page limit)
  match m.User.find page limit with
  | .ok users => (c1.status 200).json (.users users)
  | .error err => (c1.status 500).json (.message err.message)

/-- Handler of `router.put('/:id')`. -/
def putById (m : RouterScope) (c : Ctx) : Ctx :=
  let id := c.req.paramsId
  let patch := bodyFields c.req.body
  let c1 := c.call (.findByIdAndUpdate id patch)
  match m.User.findByIdAndUpdate id patch with
  | .ok none => (c1.status 404).json (.message "User not found")
  | .ok (some updatedUser) => (c1.status 200).json (.user updatedUser)
  | .error err => (c1.status 400).json (.message err.message)

/-- Handler of `router.delete('/')`. -/
def deleteRoot (m : RouterScope) (c : Ctx) : Ctx :=
  let email := c.req.queryEmail
  if !email.truthy then
    (c.status 400).json (.message "Email is required")
  else
    let c1 := c.call (.findOneAndDelete email)
    match m.User.findOneAndDelete email with
    | .ok none => (c1.status 404).json (.message "User not found")
    | .ok (some _) => (c1.status 200).json (.message "User deleted successfully")
    | .error err => (c1.status 400).json (.message err.message)

/-- Handler of `router.post('/signup')`. -/
def postSignup (m : RouterScope) (c : Ctx) : Ctx :=
  let b := c.req.body
  let c1 := c.call (.bcryptHash b.password 10)
  match m.bcrypt.hash b.password 10 with
  | .error err => (c1.status 400).json (.message err.message)
  | .ok hashedPassword =>
    let newUser : UserFields :=
      { firstName := b.firstName, lastName := b.lastName, email := b.email,
        password := .str hashedPassword, role := b.role, age := b.age,
        address := b.address, phoneNumber := b.phoneNumber }
    let c2 := c1.call (.save newUser)
    match m.User.save newUser with
    | .error err => (c2.status 400).json (.message err.message)
    | .ok user =>
      let payload : JwtPayload := { userId := user._id, role := user.fields.role }
      let c3 := c2.call (.jwtSign payload "your_jwt_secret_key" "1h")
      let token := m.jwt.sign payload "your_jwt_secret_key" "1h"
      (c3.status 201).json (.token token)

/-- Handler of `router.post('/login')`. The identifier `config` is not
declared in `Routers/user.js`, so `config.jwtSecret` is read through the
global object. -/
def postLogin (g : Globals) (m : RouterScope) (c : Ctx) : Ctx :=
  let email := c.req.body.email
  let password := c.req.body.password
  let c1 := c.call (.findOne email)
  match m.User.findOne email with
  | .error err => (c1.status 500).json (.message err.message)
  | .ok none => (c1.status 400).json (.message "Invalid credentials")
  | .ok (some user) =>
    let c2 := c1.call (.bcryptCompare password user.fields.password)
    match m.bcrypt.compare password user.fields.password with
    | .error err => (c2.status 500).json (.message err.message)
    | .ok false => (c2.status 400).json (.message "Invalid credentials")
    | .ok true =>
      let payload : JwtPayload := { userId := user._id, role := user.fields.role }
      match g.config with
      | none => (c2.status 500).json (.message (referenceError "config").message)
      | some config =>
        let c3 := c2.call (.jwtSign payload config.jwtSecret "1h")
        if config.jwtSecret = "" then
          -- `jwt.sign` throws on a falsy secret, inside `try`
          (c3.status 500).json (.message "secretOrPrivateKey must have a value")
        else
          let token := m.jwt.sign payload config.jwtSecret "1h"
          (c3.status 200).json (.token token)

/-- The route `router.get('/', authorize, handler)`. -/
def routeGetRoot (g : Globals) (config : Config) (m : RouterScope) : Ctx → Ctx :=
  authorize g config (getRoot m)

/-- The route `router.put('/:id', authorize, handler)`. -/
def routePutById (g : Globals) (config : Config) (m : RouterScope) : Ctx → Ctx :=
  authorize g config (putById m)

/-- The route `router.delete('/', authorize, handler)`. -/
def routeDeleteRoot (g : Globals) (config : Config) (m : RouterScope) : Ctx → Ctx :=
  authorize g config (deleteRoot m)

/-! ## Concrete collaborators for evaluation -/

/-- A token service for examples: the token spells out its payload and
secret, and `verify` accepts exactly the tokens signed for the users `u1`
and `u2` with the secret it is given. -/
def demoJwt : JwtLib :=
  { sign := fun p secret _ => "jwt." ++ p.userId ++ "." ++ secret
    verify := fun t secret =>
      if t = "jwt.u1." ++ secret then
        .ok { userId := "u1", role := .str "user", iat := 0, exp := 3600 }
      else if t = "jwt.u2." ++ secret then
        .ok { userId := "u2", role := .str "user", iat := 0, exp := 3600 }
      else .error { name := "JsonWebTokenError", message := "invalid signature" } }

/-- A hasher for examples. Like bcryptjs it rejects an argument that is
not a string with `Illegal arguments: <typeof>, <typeof>`. -/
def demoBcrypt : BcryptLib :=
  { hash := fun p _ =>
      match p with
      | .str s => .ok ("$2a$10$" ++ s)
      | v => .error { name := "Error",
                      message := "Illegal arguments: " ++ v.typeof ++ ", number" }
    compare := fun p stored =>
      match p, stored with
      | .str s, .str h => .ok (decide (h = "$2a$10$" ++ s))
      | v, w => .error { name := "Error",
                         message := "Illegal arguments: " ++ v.typeof ++ ", " ++ w.typeof } }

/-- The user stored in the example directory. -/
def demoUser : UserRec :=
  { _id := "u1",
    fields := { firstName := .str "A", lastName := .str "B", email := .str "a@b.com",
                password := .str "$2a$10$secret", role := .str "user", age := .num 30 } }

/-- A directory for examples: it holds `demoUser`, accepts every document
whose email is another one, and reports a duplicate key otherwise. -/
def demoDirectory : Directory :=
  { save := fun d =>
      if d.email = .str "a@b.com" then
        .error { name := "MongoServerError", message := "E11000 duplicate key error" }
      else .ok { _id := "u2", fields := d }
    find := fun _ _ => .ok [demoUser]
    findByIdAndUpdate := fun id patch =>
      if id = "u1" then .ok (some { _id := "u1", fields := patch }) else .ok none
    findOneAndDelete := fun e => if e = .str "a@b.com" then .ok (some demoUser) else .ok none
    findOne := fun e => if e = .str "a@b.com" then .ok (some demoUser) else .ok none }

/-- A directory whose `save` rejects every document as invalid, with the
given message. -/
def failingDirectory (msg : String) : Directory :=
  { demoDirectory with
    save := fun _ => .error { name := "ValidationError", message := msg } }

/-- The bindings of `Routers/user.js` for examples. -/
def demoScope : RouterScope :=
  { User := demoDirectory, jwt := demoJwt, bcrypt := demoBcrypt }

/-- A global object on which `jwt` and `config` have been defined. -/
def patchedGlobals : Globals :=
  { jwt := some demoJwt, config := some { jwtSecret := "your_jwt_secret_key" } }

/-- The signup body of the end-to-end example, with an email that the
example directory does not hold yet. -/
def signupBody : UserFields :=
  { firstName := .str "A", lastName := .str "B", email := .str "c@b.com",
    password := .str "secret", role := .str "user", age := .num 30 }

/-- A request carrying only a JSON body. -/
def withBody (b : UserFields) : Ctx :=
  { req := { body := b } }

/-- A request carrying only an `Authorization` header. -/
def withHeader (h : String) : Ctx :=
  { req := { authorization := some h } }

/-! ## The middleware -/

theorem authorize_no_header (g : Globals) (config : Config) (next : Ctx → Ctx) (c : Ctx)
    (h : c.req.authorization = none) :
    authorize g config next c
      = (c.status 401).json (.message "Access denied. No token provided.") := by
  simp [authorize, extractToken, h]

theorem authorize_token (g : Globals) (config : Config) (next : Ctx → Ctx) (c : Ctx)
    (tok : String) (h : extractToken c.req.authorization = some tok) (hne : tok ≠ "") :
    authorize g config next c = tryVerify g config next c tok := by
  simp [authorize, h, hne]

theorem tryVerify_throws (g : Globals) (config : Config) (next : Ctx → Ctx) (c : Ctx)
    (tok : String) (h : verifyThrows g config tok = true) :
    (tryVerify g config next c tok).res.sent
        = c.res.sent ++ [(400, .message "Invalid token.")]
      ∧ (tryVerify g config next c tok).nextCalls = c.nextCalls
      ∧ (tryVerify g config next c tok).req = c.req := by
  unfold verifyThrows at h
  unfold tryVerify
  cases hj : g.jwt with
  | none => simp [Ctx.status, Ctx.json]
  | some jwt =>
    rw [hj] at h
    cases hv : jwt.verify tok config.jwtSecret with
    | error e => simp [hv, Ctx.status, Ctx.json, Ctx.call]
    | ok d => simp [hv] at h

theorem authorize_throws_sent (g : Globals) (config : Config) (next : Ctx → Ctx)
    (c : Ctx) (tok : String) (h : extractToken c.req.authorization = some tok)
    (hne : tok ≠ "") (hv : verifyThrows g config tok = true) :
    (authorize g config next c).res.sent
      = c.res.sent ++ [(400, .message "Invalid token.")] := by
  rw [authorize_token g config next c tok h hne]
  exact (tryVerify_throws g config next c tok hv).1

/-- With `jwt` bound and a token that the library accepts, the `try` block
stores the decoded claims in `req.user`, touches no other field of the
request, sends nothing and calls `next` once. -/
theorem tryVerify_accepts (g : Globals) (config : Config) (next : Ctx → Ctx) (c : Ctx)
    (tok : String) (jwt : JwtLib) (d : Claims) (hj : g.jwt = some jwt)
    (hv : jwt.verify tok config.jwtSecret = .ok d) :
    tryVerify g config next c tok
      = next { req := { c.req with user := some d }, res := c.res,
               nextCalls := c.nextCalls + 1,
               calls := c.calls ++ [.jwtVerify tok config.jwtSecret] } := by
  simp [tryVerify, hj, hv, Ctx.next, Ctx.call]

/-- On the global object of the running service every non-empty token is
answered by the `catch` clause. -/
theorem tryVerify_nodeGlobals (config : Config) (next : Ctx → Ctx) (c : Ctx) (tok : String) :
    tryVerify nodeGlobals config next c tok
      = (c.status 400).json (.message "Invalid token.") := by
  simp [tryVerify, nodeGlobals]

/-- C3. A request without an `Authorization` header is answered by
`authorize` with status 401 and a message body; `next` is not called,
the request (so `req.user` too) is left as it was, no collaborator is
called, and therefore the routes GET /, PUT /:id and DELETE / make no call
to the user directory. -/
theorem C3_missing_header_rejected (g : Globals) (config : Config) (m : RouterScope)
    (next : Ctx → Ctx) (c : Ctx) (h : c.req.authorization = none) :
    (authorize g config next c).res.sent
        = c.res.sent ++ [(401, .message "Access denied. No token provided.")]
      ∧ (authorize g config next c).nextCalls = c.nextCalls
      ∧ (authorize g config next c).req = c.req
      ∧ (routeGetRoot g config m c).calls = c.calls
      ∧ (routePutById g config m c).calls = c.calls
      ∧ (routeDeleteRoot g config m c).calls = c.calls := by
  simp [routeGetRoot, routePutById, routeDeleteRoot, authorize_no_header _ _ _ _ h,
    Ctx.status, Ctx.json]

theorem C3_missing_header_rejected_witness :
    (({} : Ctx).req.authorization = none)
      ∧ (authorize patchedGlobals ⟨"k"⟩ id {}).res.sent
          = [(401, .message "Access denied. No token provided.")]
      ∧ (routeGetRoot patchedGlobals ⟨"k"⟩ demoScope {}).calls = [] :=
  ⟨rfl, (C3_missing_header_rejected patchedGlobals ⟨"k"⟩ demoScope id {} rfl).1,
    (C3_missing_header_rejected patchedGlobals ⟨"k"⟩ demoScope id {} rfl).2.2.2.1⟩

/-- C2, as the code has it. A request that carries a non-empty token whose
verification throws is answered by `authorize` with status 400 and the
body `message: "Invalid token."`; `next` is not called and the request is
left as it was. -/
theorem C2_invalid_token_rejected (g : Globals) (config : Config) (next : Ctx → Ctx)
    (c : Ctx) (tok : String) (h : extractToken c.req.authorization = some tok)
    (hne : tok ≠ "") (hv : verifyThrows g config tok = true) :
    (authorize g config next c).res.sent
        = c.res.sent ++ [(400, .message "Invalid token.")]
      ∧ (authorize g config next c).nextCalls = c.nextCalls
      ∧ (authorize g config next c).req = c.req := by
  rw [authorize_token g config next c tok h hne]
  exact tryVerify_throws g config next c tok hv

theorem C2_invalid_token_rejected_witness :
    (extractToken (withHeader "Bearer forged").req.authorization = some "forged"
        ∧ "forged" ≠ "" ∧ verifyThrows patchedGlobals ⟨"k"⟩ "forged" = true)
      ∧ (authorize patchedGlobals ⟨"k"⟩ id (withHeader "Bearer forged")).res.sent
          = [(400, .message "Invalid token.")]
      ∧ (authorize patchedGlobals ⟨"k"⟩ id (withHeader "Bearer forged")).nextCalls = 0 :=
  ⟨⟨by decide, by decide, by decide⟩,
    (C2_invalid_token_rejected patchedGlobals ⟨"k"⟩ id (withHeader "Bearer forged") "forged"
      (by decide) (by decide) (by decide)).1,
    (C2_invalid_token_rejected patchedGlobals ⟨"k"⟩ id (withHeader "Bearer forged") "forged"
      (by decide) (by decide) (by decide)).2.1⟩

/-- C2, counterexample to the status 401. The token `forged` is not empty
and the token library rejects it; the response carries status 400, not
401, whether or not `jwt` is defined. -/
theorem C2_counterexample :
    extractToken (some "Bearer forged") = some "forged"
      ∧ demoJwt.verify "forged" "k"
          = .error { name := "JsonWebTokenError", message := "invalid signature" }
      ∧ (authorize patchedGlobals ⟨"k"⟩ id (withHeader "Bearer forged")).res.sent
          = [(400, .message "Invalid token.")]
      ∧ (authorize nodeGlobals ⟨"k"⟩ id (withHeader "Bearer forged")).res.sent
          = [(400, .message "Invalid token.")]
      ∧ ¬ (∃ b, (authorize patchedGlobals ⟨"k"⟩ id (withHeader "Bearer forged")).res.sent
          = [(401, b)]) := by
  refine ⟨by decide, by rfl, by decide, by decide, ?_⟩
  rintro ⟨b, hb⟩
  have h : (authorize patchedGlobals ⟨"k"⟩ id (withHeader "Bearer forged")).res.sent
      = [(400, .message "Invalid token.")] := by decide
  rw [h] at hb
  simp at hb

/-- C4, at a token that the token library accepts. The request presents
`Bearer jwt.u1.k`, which `verify` decodes under the configured secret `k`;
`authorize` as deployed answers 400, does not call `next` and leaves
`req.user` unset. -/
theorem C4_valid_token_rejected :
    demoJwt.verify "jwt.u1.k" "k"
        = .ok { userId := "u1", role := .str "user", iat := 0, exp := 3600 }
      ∧ (authorize nodeGlobals ⟨"k"⟩ id (withHeader "Bearer jwt.u1.k")).res.sent
          = [(400, .message "Invalid token.")]
      ∧ (authorize nodeGlobals ⟨"k"⟩ id (withHeader "Bearer jwt.u1.k")).nextCalls = 0
      ∧ (authorize nodeGlobals ⟨"k"⟩ id (withHeader "Bearer jwt.u1.k")).req.user = none
      ∧ (authorize nodeGlobals ⟨"k"⟩ id (withHeader "Bearer jwt.u1.k")).calls = [] := by
  refine ⟨by rfl, by decide, by decide, by decide, by decide⟩

/-! ## Token extraction -/

theorem startsWith_append (pat post : List Char) : startsWith pat (pat ++ post) = true := by
  induction pat with
  | nil => simp [startsWith]
  | cons p ps ih => simp [startsWith, ih]

theorem replaceFirst_at_head (pat rep post : List Char) :
    replaceFirst pat rep (pat ++ post) = rep ++ post := by
  cases hs : pat ++ post with
  | nil =>
    have hp : pat = [] := (List.append_eq_nil.mp hs).1
    have hq : post = [] := (List.append_eq_nil.mp hs).2
    simp [replaceFirst, startsWith, hp, hq]
  | cons a l =>
    have h1 : startsWith pat (a :: l) = true := by rw [← hs]; exact startsWith_append pat post
    have h2 : (a :: l).drop pat.length = post := by rw [← hs]; simp
    simp only [replaceFirst, h1, if_true, h2]

/-- When `pat` starts at no position before `pre.length`, the occurrence
right after `pre` is the one that `replace` substitutes. -/
theorem replaceFirst_first_occurrence (pat rep post : List Char) :
    ∀ pre : List Char,
      (∀ k, k < pre.length → startsWith pat ((pre ++ (pat ++ post)).drop k) = false) →
      replaceFirst pat rep (pre ++ (pat ++ post)) = pre ++ (rep ++ post) := by
  intro pre
  induction pre with
  | nil => intro _; simpa using replaceFirst_at_head pat rep post
  | cons a pre ih =>
    intro h
    have h0 : startsWith pat (a :: (pre ++ (pat ++ post))) = false := by
      simpa using h 0 (by simp)
    have hrest : ∀ k, k < pre.length →
        startsWith pat ((pre ++ (pat ++ post)).drop k) = false := by
      intro k hk
      simpa using h (k + 1) (by simpa using hk)
    simp [replaceFirst, h0, ih hrest]

theorem replaceFirst_no_occurrence (pat rep : List Char) :
    ∀ s : List Char, occursIn pat s = false → replaceFirst pat rep s = s := by
  intro s
  induction s with
  | nil => intro h; simp [occursIn] at h; simp [replaceFirst, h]
  | cons a l ih =>
    intro h
    simp only [occursIn, Bool.or_eq_false_iff] at h
    simp [replaceFirst, h.1, ih h.2]

theorem jsReplace_first_occurrence (pre pat rep post : String)
    (h : ∀ k, k < pre.length →
      startsWith pat.data ((pre ++ pat ++ post).data.drop k) = false) :
    jsReplace (pre ++ pat ++ post) pat rep = pre ++ rep ++ post := by
  have h2 : ∀ k, k < pre.data.length →
      startsWith pat.data ((pre.data ++ (pat.data ++ post.data)).drop k) = false := by
    intro k hk
    have h3 := h k hk
    rw [String.data_append, String.data_append, List.append_assoc] at h3
    exact h3
  have h4 := replaceFirst_first_occurrence pat.data rep.data post.data pre.data h2
  apply String.ext
  show replaceFirst pat.data rep.data (pre ++ pat ++ post).data = (pre ++ rep ++ post).data
  rw [String.data_append, String.data_append, String.data_append, String.data_append,
    List.append_assoc, List.append_assoc, h4]

theorem jsReplace_no_occurrence (s pat rep : String)
    (hno : occursIn pat.data s.data = false) : jsReplace s pat rep = s := by
  apply String.ext
  exact replaceFirst_no_occurrence _ _ _ hno

theorem string_append_empty (s : String) : s ++ "" = s := by
  apply String.ext
  rw [String.data_append]
  exact List.append_nil _

/-- C10, as the code has it. The candidate token is the header with the
first occurrence of `Bearer ` cut out, wherever that occurrence starts; a
header without any occurrence is its own candidate token. The headers
`Bearer ` and the empty string are answered 401 with no collaborator
called and `next` not called. A non-empty header without any occurrence is
handed whole to the `try` block, and when `jwt` is defined the verifier is
called with exactly that header and the configured secret. -/
theorem C10_token_extraction :
    (∀ pre post : String,
        (∀ k, k < pre.length →
          startsWith "Bearer ".data ((pre ++ "Bearer " ++ post).data.drop k) = false) →
        extractToken (some (pre ++ "Bearer " ++ post)) = some (pre ++ post))
      ∧ (∀ h : String, occursIn "Bearer ".data h.data = false →
          extractToken (some h) = some h)
      ∧ (∀ (g : Globals) (config : Config) (next : Ctx → Ctx) (c : Ctx),
          (c.req.authorization = some "Bearer " ∨ c.req.authorization = some "") →
          authorize g config next c
            = (c.status 401).json (.message "Access denied. No token provided."))
      ∧ (∀ (g : Globals) (config : Config) (next : Ctx → Ctx) (c : Ctx) (h : String),
          c.req.authorization = some h → h ≠ "" →
          occursIn "Bearer ".data h.data = false →
          authorize g config next c = tryVerify g config next c h
            ∧ ∀ jwt, g.jwt = some jwt →
                (authorize g config id c).calls
                  = c.calls ++ [.jwtVerify h config.jwtSecret]) := by
  refine ⟨?_, ?_, ?_, ?_⟩
  · intro pre post h
    have h1 := jsReplace_first_occurrence pre "Bearer " "" post h
    rw [string_append_empty] at h1
    simp only [extractToken, Option.map_some', h1]
  · intro h hno
    simp only [extractToken, Option.map_some', jsReplace_no_occurrence h _ _ hno]
  · intro g config next c h
    have e1 : extractToken (some "Bearer ") = some "" := by decide
    have e2 : extractToken (some "") = some "" := by decide
    rcases h with h | h <;> simp [authorize, h, e1, e2]
  · intro g config next c h hh hne hno
    have ht : extractToken c.req.authorization = some h := by
      rw [hh]; simp only [extractToken, Option.map_some', jsReplace_no_occurrence h _ _ hno]
    refine ⟨authorize_token g config next c h ht hne, ?_⟩
    intro jwt hj
    rw [authorize_token g config id c h ht hne]
    unfold tryVerify
    rw [hj]
    cases hv : jwt.verify h config.jwtSecret <;>
      simp [hv, Ctx.status, Ctx.json, Ctx.call, Ctx.next]

theorem C10_token_extraction_witness :
    ((∀ k, k < "x".length →
          startsWith "Bearer ".data (("x" ++ "Bearer " ++ "y").data.drop k) = false)
        ∧ extractToken (some ("x" ++ "Bearer " ++ "y")) = some ("x" ++ "y"))
      ∧ (occursIn "Bearer ".data "abc".data = false ∧ extractToken (some "abc") = some "abc")
      ∧ authorize patchedGlobals ⟨"k"⟩ id (withHeader "Bearer ")
          = ((withHeader "Bearer ").status 401).json
              (.message "Access denied. No token provided.")
      ∧ authorize patchedGlobals ⟨"k"⟩ id (withHeader "abc")
          = tryVerify patchedGlobals ⟨"k"⟩ id (withHeader "abc") "abc" :=
  ⟨⟨by decide, C10_token_extraction.1 "x" "y" (by decide)⟩,
    ⟨by decide, C10_token_extraction.2.1 "abc" (by decide)⟩,
    C10_token_extraction.2.2.1 patchedGlobals ⟨"k"⟩ id (withHeader "Bearer ") (Or.inl rfl),
    (C10_token_extraction.2.2.2 patchedGlobals ⟨"k"⟩ id (withHeader "abc") "abc" rfl
      (by decide) (by decide)).1⟩

/-- C10, counterexample to the last clause. The header `x Bearer y` does
not start with `Bearer `, yet it is not passed whole: the candidate token
is `x y`, and that is what the verifier is called with. -/
theorem C10_counterexample :
    startsWith "Bearer ".data "x Bearer y".data = false
      ∧ extractToken (some "x Bearer y") = some "x y"
      ∧ extractToken (some "x Bearer y") ≠ some "x Bearer y"
      ∧ (authorize patchedGlobals ⟨"k"⟩ id (withHeader "x Bearer y")).calls
          = [.jwtVerify "x y" "k"] := by
  refine ⟨by decide, by decide, by decide, by decide⟩

/-! ## The handlers -/

theorem bodyFields_eq (b : UserFields) : bodyFields b = b := rfl

theorem postRoot_calls (m : RouterScope) (c : Ctx) :
    (postRoot m c).calls = c.calls ++ [.save c.req.body] := by
  unfold postRoot
  rw [bodyFields_eq]
  cases hs : m.User.save c.req.body <;> simp [hs, Ctx.status, Ctx.json, Ctx.call]

theorem putById_calls (m : RouterScope) (c : Ctx) :
    (putById m c).calls = c.calls ++ [.findByIdAndUpdate c.req.paramsId c.req.body] := by
  unfold putById
  rw [bodyFields_eq]
  cases h : m.User.findByIdAndUpdate c.req.paramsId c.req.body with
  | error e => simp [h, Ctx.status, Ctx.json, Ctx.call]
  | ok r => cases r <;> simp [h, Ctx.status, Ctx.json, Ctx.call]

/-- The signup handler hands the directory the hasher output, not the
password of the body. -/
theorem postSignup_hashes (m : RouterScope) (c : Ctx) (d : UserFields)
    (h : Call.save d ∈ (postSignup m c).calls) (hc : Call.save d ∉ c.calls) :
    ∃ hashed, m.bcrypt.hash c.req.body.password 10 = .ok hashed
      ∧ d = { c.req.body with password := .str hashed } := by
  unfold postSignup at h
  cases hh : m.bcrypt.hash c.req.body.password 10 with
  | error e =>
    simp [hh, Ctx.status, Ctx.json, Ctx.call] at h
    exact absurd h hc
  | ok hashed =>
    refine ⟨hashed, rfl, ?_⟩
    simp only [hh] at h
    split at h <;> simp [Ctx.status, Ctx.json, Ctx.call] at h <;>
      rcases h with h | h <;> first | exact absurd h hc | exact h

/-- C1, at a body with a plaintext password. The handler of POST / hands
the directory the password `secret` as it came in and never calls the
hasher; the handler of PUT /:id does the same with its patch; only the
signup handler stores the hasher output. -/
theorem C1_plaintext_password_stored :
    (postRoot demoScope (withBody signupBody)).calls = [.save signupBody]
      ∧ signupBody.password = .str "secret"
      ∧ (putById demoScope (withBody signupBody)).calls
          = [.findByIdAndUpdate "" signupBody]
      ∧ (postSignup demoScope (withBody signupBody)).calls
          = [.bcryptHash (.str "secret") 10,
             .save { signupBody with password := .str "$2a$10$secret" },
             .jwtSign { userId := "u2", role := .str "user" } "your_jwt_secret_key" "1h"] := by
  refine ⟨by decide, by decide, by decide, by decide⟩

/-- With matching credentials the login handler reaches `jwt.sign`, whose
second argument reads `config`; on the global object of the running
service that read throws and the `catch` clause answers 500. -/
theorem postLogin_nodeGlobals (m : RouterScope) (c : Ctx) (user : UserRec)
    (hf : m.User.findOne c.req.body.email = .ok (some user))
    (hc : m.bcrypt.compare c.req.body.password user.fields.password = .ok true) :
    postLogin nodeGlobals m c
      = (((c.call (.findOne c.req.body.email)).call
            (.bcryptCompare c.req.body.password user.fields.password)).status 500).json
          (.message "config is not defined") := by
  have hm : (referenceError "config").message = "config is not defined" := by decide
  simp [postLogin, hf, hc, nodeGlobals, hm]

/-- With matching credentials and `config` defined with a non-empty
secret, the login handler answers 200 with the token signed for the stored
id and role. -/
theorem postLogin_config_defined (g : Globals) (config : Config) (m : RouterScope) (c : Ctx)
    (user : UserRec) (hg : g.config = some config) (hs : config.jwtSecret ≠ "")
    (hf : m.User.findOne c.req.body.email = .ok (some user))
    (hc : m.bcrypt.compare c.req.body.password user.fields.password = .ok true) :
    (postLogin g m c).res.sent
      = c.res.sent ++ [(200, .token (m.jwt.sign
          { userId := user._id, role := user.fields.role } config.jwtSecret "1h"))] := by
  simp [postLogin, hf, hc, hg, hs, Ctx.status, Ctx.json, Ctx.call]

/-- C6, at matching credentials. The directory holds the user with email
`a@b.com`, the password `secret` verifies against the stored hash, and the
login handler answers 500 with the message of the `ReferenceError`; no
token is signed. -/
theorem C6_login_match_fails :
    demoScope.User.findOne (.str "a@b.com") = .ok (some demoUser)
      ∧ demoScope.bcrypt.compare (.str "secret") demoUser.fields.password = .ok true
      ∧ (postLogin nodeGlobals demoScope
            (withBody { email := .str "a@b.com", password := .str "secret" })).res.sent
          = [(500, .message "config is not defined")]
      ∧ (postLogin nodeGlobals demoScope
            (withBody { email := .str "a@b.com", password := .str "secret" })).calls
          = [.findOne (.str "a@b.com"),
             .bcryptCompare (.str "secret") (.str "$2a$10$secret")] := by
  refine ⟨by rfl, by rfl, by decide, by decide⟩

/-- C5, at the token of a signup. The signup handler signs with the
literal `your_jwt_secret_key`. Presented as a bearer token, its token is
answered 400 by `authorize` as deployed, whatever the configured secret;
with `jwt` defined it is still answered 400 when the configured secret is
another string, and accepted with the signed id and role only when the
configured secret is that literal. The login handler signs no token. -/
theorem C5_round_trip_fails :
    (postSignup demoScope (withBody signupBody)).res.sent
        = [(201, .token "jwt.u2.your_jwt_secret_key")]
      ∧ (authorize nodeGlobals ⟨"your_jwt_secret_key"⟩ id
            (withHeader "Bearer jwt.u2.your_jwt_secret_key")).res.sent
          = [(400, .message "Invalid token.")]
      ∧ (authorize nodeGlobals ⟨"your_jwt_secret_key"⟩ id
            (withHeader "Bearer jwt.u2.your_jwt_secret_key")).req.user = none
      ∧ (authorize patchedGlobals ⟨"s3cret"⟩ id
            (withHeader "Bearer jwt.u2.your_jwt_secret_key")).res.sent
          = [(400, .message "Invalid token.")]
      ∧ (authorize patchedGlobals ⟨"your_jwt_secret_key"⟩ id
            (withHeader "Bearer jwt.u2.your_jwt_secret_key")).req.user
          = some { userId := "u2", role := .str "user", iat := 0, exp := 3600 }
      ∧ (postLogin nodeGlobals demoScope
            (withBody { email := .str "a@b.com", password := .str "secret" })).res.sent
          = [(500, .message "config is not defined")] := by
  refine ⟨by decide, by decide, by decide, by decide, by decide, by decide⟩

/-- C7. When hashing and saving succeed, the signup handler answers 201
with a body that is the token alone, signed for the saved user id and
role. When hashing or saving throws, it answers 400 with a message body
and signs no token. -/
theorem C7_signup_responses (m : RouterScope) (c : Ctx) :
    (∀ (hashed : String) (user : UserRec),
        m.bcrypt.hash c.req.body.password 10 = .ok hashed →
        m.User.save { c.req.body with password := .str hashed } = .ok user →
        (postSignup m c).res.sent
            = c.res.sent ++ [(201, .token (m.jwt.sign
                { userId := user._id, role := user.fields.role } "your_jwt_secret_key" "1h"))]
          ∧ (postSignup m c).calls
            = c.calls ++ [.bcryptHash c.req.body.password 10,
                .save { c.req.body with password := .str hashed },
                .jwtSign { userId := user._id, role := user.fields.role }
                  "your_jwt_secret_key" "1h"])
      ∧ (((∃ e, m.bcrypt.hash c.req.body.password 10 = .error e)
            ∨ ∃ hashed e, m.bcrypt.hash c.req.body.password 10 = .ok hashed
                ∧ m.User.save { c.req.body with password := .str hashed } = .error e) →
          (∃ msg, (postSignup m c).res.sent = c.res.sent ++ [(400, .message msg)])
            ∧ ∀ p s x, Call.jwtSign p s x ∈ (postSignup m c).calls →
                Call.jwtSign p s x ∈ c.calls) := by
  constructor
  · intro hashed user hh hs
    simp [postSignup, hh, hs, Ctx.status, Ctx.json, Ctx.call]
  · rintro (⟨e, hh⟩ | ⟨hashed, e, hh, hs⟩)
    · refine ⟨⟨e.message, ?_⟩, ?_⟩
      · simp [postSignup, hh, Ctx.status, Ctx.json, Ctx.call]
      · intro p s x hx
        simpa [postSignup, hh, Ctx.status, Ctx.json, Ctx.call] using hx
    · refine ⟨⟨e.message, ?_⟩, ?_⟩
      · simp [postSignup, hh, hs, Ctx.status, Ctx.json, Ctx.call]
      · intro p s x hx
        simpa [postSignup, hh, hs, Ctx.status, Ctx.json, Ctx.call] using hx

theorem C7_signup_responses_witness :
    ((demoScope.bcrypt.hash (withBody signupBody).req.body.password 10 = .ok "$2a$10$secret"
          ∧ demoScope.User.save
              { (withBody signupBody).req.body with password := .str "$2a$10$secret" }
            = .ok { _id := "u2",
                    fields := { signupBody with password := .str "$2a$10$secret" } })
        ∧ (postSignup demoScope (withBody signupBody)).res.sent
            = [(201, .token "jwt.u2.your_jwt_secret_key")])
      ∧ ((∃ hashed e,
            demoScope.bcrypt.hash
                (withBody { signupBody with email := .str "a@b.com" }).req.body.password 10
              = .ok hashed
            ∧ demoScope.User.save
                { (withBody { signupBody with email := .str "a@b.com" }).req.body with
                  password := .str hashed } = .error e)
        ∧ ∃ msg, (postSignup demoScope
              (withBody { signupBody with email := .str "a@b.com" })).res.sent
            = [(400, .message msg)]) :=
  ⟨⟨⟨by rfl, by rfl⟩,
      ((C7_signup_responses demoScope (withBody signupBody)).1 "$2a$10$secret"
        { _id := "u2", fields := { signupBody with password := .str "$2a$10$secret" } }
        (by rfl) (by rfl)).1⟩,
    ⟨⟨"$2a$10$secret", _, by rfl, by rfl⟩,
      ((C7_signup_responses demoScope
          (withBody { signupBody with email := .str "a@b.com" })).2
        (Or.inr ⟨"$2a$10$secret", _, by rfl, by rfl⟩)).1⟩⟩

/-- C8, as the code has it. When the directory finds no user for the
email, or finds one and the comparison of the password with the stored
hash returns false, the login handler answers 400 with the message
`Invalid credentials`, the same in both cases. When the comparison itself
throws, or the lookup throws, the handler answers 500 with the message of
the error. Whenever the credentials do not verify, in any of these ways,
no token is signed. -/
theorem C8_login_invalid_credentials (g : Globals) (m : RouterScope) (c : Ctx) :
    ((m.User.findOne c.req.body.email = .ok none
          ∨ ∃ user, m.User.findOne c.req.body.email = .ok (some user)
              ∧ m.bcrypt.compare c.req.body.password user.fields.password = .ok false) →
        (postLogin g m c).res.sent = c.res.sent ++ [(400, .message "Invalid credentials")])
      ∧ (∀ user e, m.User.findOne c.req.body.email = .ok (some user) →
          m.bcrypt.compare c.req.body.password user.fields.password = .error e →
          (postLogin g m c).res.sent = c.res.sent ++ [(500, .message e.message)])
      ∧ (∀ e, m.User.findOne c.req.body.email = .error e →
          (postLogin g m c).res.sent = c.res.sent ++ [(500, .message e.message)])
      ∧ ((¬ ∃ user, m.User.findOne c.req.body.email = .ok (some user)
              ∧ m.bcrypt.compare c.req.body.password user.fields.password = .ok true) →
          ∀ p s x, Call.jwtSign p s x ∈ (postLogin g m c).calls →
            Call.jwtSign p s x ∈ c.calls) := by
  refine ⟨?_, ?_, ?_, ?_⟩
  · rintro (hf | ⟨user, hf, hc⟩)
    · simp [postLogin, hf, Ctx.status, Ctx.json, Ctx.call]
    · simp [postLogin, hf, hc, Ctx.status, Ctx.json, Ctx.call]
  · intro user e hf hc
    simp [postLogin, hf, hc, Ctx.status, Ctx.json, Ctx.call]
  · intro e hf
    simp [postLogin, hf, Ctx.status, Ctx.json, Ctx.call]
  · intro hno p s x hx
    cases hf : m.User.findOne c.req.body.email with
    | error e => simpa [postLogin, hf, Ctx.status, Ctx.json, Ctx.call] using hx
    | ok r =>
      cases r with
      | none => simpa [postLogin, hf, Ctx.status, Ctx.json, Ctx.call] using hx
      | some user =>
        cases hc : m.bcrypt.compare c.req.body.password user.fields.password with
        | error e => simpa [postLogin, hf, hc, Ctx.status, Ctx.json, Ctx.call] using hx
        | ok b =>
          cases b with
          | false => simpa [postLogin, hf, hc, Ctx.status, Ctx.json, Ctx.call] using hx
          | true => exact absurd ⟨user, hf, hc⟩ hno

theorem C8_login_invalid_credentials_witness :
    (demoScope.User.findOne
          (withBody { email := .str "nobody@b.com", password := .str "secret" }).req.body.email
        = .ok none
      ∧ (postLogin nodeGlobals demoScope
            (withBody { email := .str "nobody@b.com", password := .str "secret" })).res.sent
          = [(400, .message "Invalid credentials")])
    ∧ ((∃ user, demoScope.User.findOne
            (withBody { email := .str "a@b.com", password := .str "wrong" }).req.body.email
            = .ok (some user)
          ∧ demoScope.bcrypt.compare
              (withBody { email := .str "a@b.com", password := .str "wrong" }).req.body.password
              user.fields.password = .ok false)
      ∧ (postLogin patchedGlobals demoScope
            (withBody { email := .str "a@b.com", password := .str "wrong" })).res.sent
          = [(400, .message "Invalid credentials")])
    ∧ ((demoScope.User.findOne (withBody { email := .str "a@b.com" }).req.body.email
            = .ok (some demoUser)
          ∧ demoScope.bcrypt.compare (withBody { email := .str "a@b.com" }).req.body.password
              demoUser.fields.password
            = .error { name := "Error", message := "Illegal arguments: undefined, string" })
      ∧ (postLogin patchedGlobals demoScope (withBody { email := .str "a@b.com" })).res.sent
          = [(500, .message "Illegal arguments: undefined, string")]) :=
  ⟨⟨by rfl,
      (C8_login_invalid_credentials nodeGlobals demoScope
        (withBody { email := .str "nobody@b.com", password := .str "secret" })).1
        (Or.inl (by rfl))⟩,
    ⟨⟨demoUser, by rfl, by rfl⟩,
      (C8_login_invalid_credentials patchedGlobals demoScope
        (withBody { email := .str "a@b.com", password := .str "wrong" })).1
        (Or.inr ⟨demoUser, by rfl, by rfl⟩)⟩,
    ⟨⟨by rfl, by rfl⟩,
      (C8_login_invalid_credentials patchedGlobals demoScope
        (withBody { email := .str "a@b.com" })).2.1 demoUser
        { name := "Error", message := "Illegal arguments: undefined, string" }
        (by rfl) (by rfl)⟩⟩

/-- C8, counterexample. The directory holds a user for `a@b.com` and the
login body carries no password: the comparison throws, so the password
does not verify, and the handler answers 500 with the message of the
library, not 400 `Invalid credentials`; the response also differs from the
one for an unknown email. -/
theorem C8_counterexample :
    demoScope.User.findOne (.str "a@b.com") = .ok (some demoUser)
      ∧ demoScope.bcrypt.compare .undefined demoUser.fields.password
          = .error { name := "Error", message := "Illegal arguments: undefined, string" }
      ∧ (postLogin nodeGlobals demoScope (withBody { email := .str "a@b.com" })).res.sent
          = [(500, .message "Illegal arguments: undefined, string")]
      ∧ (postLogin patchedGlobals demoScope (withBody { email := .str "a@b.com" })).res.sent
          = [(500, .message "Illegal arguments: undefined, string")]
      ∧ (postLogin nodeGlobals demoScope (withBody { email := .str "nobody@b.com" })).res.sent
          = [(400, .message "Invalid credentials")]
      ∧ (postLogin nodeGlobals demoScope (withBody { email := .str "a@b.com" })).res.sent
          ≠ (postLogin nodeGlobals demoScope
              (withBody { email := .str "nobody@b.com" })).res.sent := by
  refine ⟨by rfl, by rfl, by decide, by decide, by decide, by decide⟩

/-- C9, as the code has it. For `authorize`, two runs on the same request
whose verification throws, for whatever underlying reason, send the same
status and body. For the signup handler, a run in which hashing or saving
throws `e` sends status 400 with the body `message: e.message`; two such
runs on the same request therefore send equal responses exactly when the
underlying messages are equal. -/
theorem C9_error_details (c : Ctx) :
    (∀ (g1 g2 : Globals) (config : Config) (next : Ctx → Ctx) (tok : String),
        extractToken c.req.authorization = some tok → tok ≠ "" →
        verifyThrows g1 config tok = true → verifyThrows g2 config tok = true →
        (authorize g1 config next c).res.sent = (authorize g2 config next c).res.sent)
      ∧ (∀ (m : RouterScope) (e : JsError),
          (m.bcrypt.hash c.req.body.password 10 = .error e
            ∨ ∃ hashed, m.bcrypt.hash c.req.body.password 10 = .ok hashed
                ∧ m.User.save { c.req.body with password := .str hashed } = .error e) →
          (postSignup m c).res.sent = c.res.sent ++ [(400, .message e.message)])
      ∧ (∀ (m1 m2 : RouterScope) (e1 e2 : JsError),
          (m1.bcrypt.hash c.req.body.password 10 = .error e1
            ∨ ∃ hashed, m1.bcrypt.hash c.req.body.password 10 = .ok hashed
                ∧ m1.User.save { c.req.body with password := .str hashed } = .error e1) →
          (m2.bcrypt.hash c.req.body.password 10 = .error e2
            ∨ ∃ hashed, m2.bcrypt.hash c.req.body.password 10 = .ok hashed
                ∧ m2.User.save { c.req.body with password := .str hashed } = .error e2) →
          ((postSignup m1 c).res.sent = (postSignup m2 c).res.sent
            ↔ e1.message = e2.message)) := by
  have signup : ∀ (m : RouterScope) (e : JsError),
      (m.bcrypt.hash c.req.body.password 10 = .error e
        ∨ ∃ hashed, m.bcrypt.hash c.req.body.password 10 = .ok hashed
            ∧ m.User.save { c.req.body with password := .str hashed } = .error e) →
      (postSignup m c).res.sent = c.res.sent ++ [(400, .message e.message)] := by
    rintro m e (hh | ⟨hashed, hh, hs⟩)
    · simp [postSignup, hh, Ctx.status, Ctx.json, Ctx.call]
    · simp [postSignup, hh, hs, Ctx.status, Ctx.json, Ctx.call]
  refine ⟨?_, signup, ?_⟩
  · intro g1 g2 config next tok ht hne h1 h2
    rw [(authorize_throws_sent g1 config next c tok ht hne h1),
      (authorize_throws_sent g2 config next c tok ht hne h2)]
  · intro m1 m2 e1 e2 h1 h2
    rw [signup m1 e1 h1, signup m2 e2 h2]
    simp

theorem C9_error_details_witness :
    ((extractToken (withHeader "Bearer forged").req.authorization = some "forged"
          ∧ "forged" ≠ ""
          ∧ verifyThrows nodeGlobals ⟨"k"⟩ "forged" = true
          ∧ verifyThrows patchedGlobals ⟨"k"⟩ "forged" = true)
        ∧ (authorize nodeGlobals ⟨"k"⟩ id (withHeader "Bearer forged")).res.sent
            = (authorize patchedGlobals ⟨"k"⟩ id (withHeader "Bearer forged")).res.sent)
      ∧ ((∃ hashed, demoScope.bcrypt.hash
              (withBody { signupBody with email := .str "a@b.com" }).req.body.password 10
              = .ok hashed
            ∧ demoScope.User.save
                { (withBody { signupBody with email := .str "a@b.com" }).req.body with
                  password := .str hashed }
              = .error { name := "MongoServerError", message := "E11000 duplicate key error" })
        ∧ (postSignup demoScope
              (withBody { signupBody with email := .str "a@b.com" })).res.sent
            = [(400, .message "E11000 duplicate key error")]) :=
  ⟨⟨⟨by decide, by decide, by decide, by decide⟩,
      (C9_error_details (withHeader "Bearer forged")).1 nodeGlobals patchedGlobals ⟨"k"⟩ id
        "forged" (by decide) (by decide) (by decide) (by decide)⟩,
    ⟨⟨"$2a$10$secret", by rfl, by rfl⟩,
      (C9_error_details (withBody { signupBody with email := .str "a@b.com" })).2.1 demoScope
        { name := "MongoServerError", message := "E11000 duplicate key error" }
        (Or.inr ⟨"$2a$10$secret", by rfl, by rfl⟩)⟩⟩

/-- C9, counterexample for the signup handler. The same signup request
fails validation in the directory in two runs, with two different
messages; both responses have status 400 and their bodies differ. -/
theorem C9_counterexample :
    (postSignup
          { User := failingDirectory "User validation failed: age is required",
            jwt := demoJwt, bcrypt := demoBcrypt } (withBody signupBody)).res.sent
        = [(400, .message "User validation failed: age is required")]
      ∧ (postSignup
          { User := failingDirectory "User validation failed: role is required",
            jwt := demoJwt, bcrypt := demoBcrypt } (withBody signupBody)).res.sent
        = [(400, .message "User validation failed: role is required")]
      ∧ (postSignup
          { User := failingDirectory "User validation failed: age is required",
            jwt := demoJwt, bcrypt := demoBcrypt } (withBody signupBody)).res.sent
        ≠ (postSignup
          { User := failingDirectory "User validation failed: role is required",
            jwt := demoJwt, bcrypt := demoBcrypt } (withBody signupBody)).res.sent := by
  refine ⟨by decide, by decide, by decide⟩

end SwaggerCrud
